import Mathlib

/-!
Verification development for the `context_manager` repository.

The repository has two crates:

* `context_manager` (src/context_manager/src): the `CallerContext` record
  and the two hook-protocol traits `SyncWrapContext` (t_sync.rs) and
  `AsyncWrapContext` (t_async.rs), each with provided `run_sync` /
  `run_async` / `run` entry points.
* `context_manager_macro` (src/context_manager_macro/src/lib.rs): the
  procedural macros `wrap` and `async_wrap` rewriting an annotated
  function's body.

The runtime part is embedded as state-passing functions: a context type's
side effects live in an explicit state `σ`, the context value has type `C`,
the wrapped body produces a `T`.  Awaiting a future is modelled as running
the corresponding state function to completion (sequential semantics of a
single call, which is all the traits promise).  The macro part is embedded
as a total function over a small syntax model of the token streams the
macro inspects and produces.
-/

/-- `CallerContext` (src/context_manager/src/lib.rs, lines 27-44): immutable
record carrying the wrapped function's name. -/
structure CallerContext where
  fn_name : String
deriving DecidableEq, Repr

/-- `CallerContext::new` (lib.rs line 35). -/
def CallerContext.new (fn_name : String) : CallerContext :=
  { fn_name := fn_name }

/-- `SyncWrapContext` trait (t_sync.rs lines 51-143): the three hooks an
implementer supplies.  `new` builds the context (possibly touching the
state), `before` runs with the context borrowed, `after` consumes the
context and observes the result by reference. -/
structure SyncWrapContext (σ : Type u) (C : Type v) (T : Type w) where
  new : σ → C × σ
  before : C → CallerContext → σ → σ
  after : C → CallerContext → T → σ → σ

/-- `SyncWrapContext::run_sync` (t_sync.rs lines 98-107): provided method
sequencing `new`, `before`, the block, `after`, returning the block's
result. -/
def SyncWrapContext.run_sync (impl : SyncWrapContext σ C T)
    (caller_context : CallerContext) (block : σ → T × σ) (s : σ) : T × σ :=
  let cs := impl.new s
  let s1 := impl.before cs.1 caller_context cs.2
  let rt := block s1
  let s2 := impl.after cs.1 caller_context rt.1 rt.2
  (rt.1, s2)

/-- `SyncWrapContext::run_async` (t_sync.rs lines 133-142): same sequencing,
but the block is a future; awaiting it is modelled as running the state
function at the await point (after `before`). -/
def SyncWrapContext.run_async (impl : SyncWrapContext σ C T)
    (caller_context : CallerContext) (block : σ → T × σ) (s : σ) : T × σ :=
  let cs := impl.new s
  let s1 := impl.before cs.1 caller_context cs.2
  let rt := block s1
  let s2 := impl.after cs.1 caller_context rt.1 rt.2
  (rt.1, s2)

/-- `AsyncWrapContext` trait (t_async.rs lines 45-104): hooks are themselves
suspending; under the sequential per-call semantics they are again state
functions. -/
structure AsyncWrapContext (σ : Type u) (C : Type v) (T : Type w) where
  new : σ → C × σ
  before : C → CallerContext → σ → σ
  after : C → CallerContext → T → σ → σ

/-- `AsyncWrapContext::run` (t_async.rs lines 94-103): awaited sequencing of
`new`, `before`, the block, `after`, returning the block's result. -/
def AsyncWrapContext.run (impl : AsyncWrapContext σ C T)
    (caller_context : CallerContext) (block : σ → T × σ) (s : σ) : T × σ :=
  let cs := impl.new s
  let s1 := impl.before cs.1 caller_context cs.2
  let rt := block s1
  let s2 := impl.after cs.1 caller_context rt.1 rt.2
  (rt.1, s2)

/-- Observable steps of one wrapped call, for instrumentation. -/
inductive HookEvent where
  | init
  | before
  | body
  | after
deriving DecidableEq, Repr

/-- Instrument a sync-hook context so that every hook appends its event to a
trace carried alongside the state (the "observable counter" of the spec's
testable property 1). -/
def instrumentS (impl : SyncWrapContext σ C T) :
    SyncWrapContext (σ × List HookEvent) C T where
  new p := ((impl.new p.1).1, ((impl.new p.1).2, p.2 ++ [HookEvent.init]))
  before c cc p := (impl.before c cc p.1, p.2 ++ [HookEvent.before])
  after c cc r p := (impl.after c cc r p.1, p.2 ++ [HookEvent.after])

/-- Instrument an async-hook context the same way. -/
def instrumentA (impl : AsyncWrapContext σ C T) :
    AsyncWrapContext (σ × List HookEvent) C T where
  new p := ((impl.new p.1).1, ((impl.new p.1).2, p.2 ++ [HookEvent.init]))
  before c cc p := (impl.before c cc p.1, p.2 ++ [HookEvent.before])
  after c cc r p := (impl.after c cc r p.1, p.2 ++ [HookEvent.after])

/-- Instrument a body block so that executing it appends the `body` event. -/
def instrumentBlock (block : σ → T × σ) :
    σ × List HookEvent → T × (σ × List HookEvent) :=
  fun p => ((block p.1).1, ((block p.1).2, p.2 ++ [HookEvent.body]))

/-- Instrument a sync-hook context so that `before` and `after` record the
`CallerContext` value they are handed (spec's testable property 7). -/
def recordS (impl : SyncWrapContext σ C T) :
    SyncWrapContext (σ × List CallerContext) C T where
  new p := ((impl.new p.1).1, ((impl.new p.1).2, p.2))
  before c cc p := (impl.before c cc p.1, p.2 ++ [cc])
  after c cc r p := (impl.after c cc r p.1, p.2 ++ [cc])

/-- Instrument an async-hook context so that `before` and `after` record the
`CallerContext` value they are handed. -/
def recordA (impl : AsyncWrapContext σ C T) :
    AsyncWrapContext (σ × List CallerContext) C T where
  new p := ((impl.new p.1).1, ((impl.new p.1).2, p.2))
  before c cc p := (impl.before c cc p.1, p.2 ++ [cc])
  after c cc r p := (impl.after c cc r p.1, p.2 ++ [cc])

/-- Lift a body block over the caller-context recording state (the body does
not see the recording). -/
def recordBlock (block : σ → T × σ) :
    σ × List CallerContext → T × (σ × List CallerContext) :=
  fun p => ((block p.1).1, ((block p.1).2, p.2))

/-!
Fallible variants: the Rust hooks and body can fail at run time (panic /
whatever failure signal the surrounding code uses).  `run_sync`, `run_async`
and `run` are straight-line code with no catch, so a failure at any step
aborts the remaining steps and surfaces to the caller.  Each hook is
modelled as returning `Except ε _`; the entry points below are the same
three source functions read under that failure semantics.
-/

/-- `SyncWrapContext` with fallible hooks (same trait, failure semantics). -/
structure SyncWrapContextF (ε : Type u) (σ : Type v) (C : Type w) (T : Type x) where
  new : σ → Except ε (C × σ)
  before : C → CallerContext → σ → Except ε σ
  after : C → CallerContext → T → σ → Except ε σ

/-- `AsyncWrapContext` with fallible hooks (same trait, failure semantics). -/
structure AsyncWrapContextF (ε : Type u) (σ : Type v) (C : Type w) (T : Type x) where
  new : σ → Except ε (C × σ)
  before : C → CallerContext → σ → Except ε σ
  after : C → CallerContext → T → σ → Except ε σ

/-- `SyncWrapContext::run_sync` (t_sync.rs lines 98-107) under the failure
semantics: each step either fails, aborting the rest, or continues; there is
no catch, retry or suppression anywhere in the body. -/
def SyncWrapContextF.run_sync (impl : SyncWrapContextF ε σ C T)
    (caller_context : CallerContext) (block : σ → Except ε (T × σ)) (s : σ) :
    Except ε (T × σ) :=
  match impl.new s with
  | .error e => .error e
  | .ok cs =>
    match impl.before cs.1 caller_context cs.2 with
    | .error e => .error e
    | .ok s1 =>
      match block s1 with
      | .error e => .error e
      | .ok rt =>
        match impl.after cs.1 caller_context rt.1 rt.2 with
        | .error e => .error e
        | .ok s2 => .ok (rt.1, s2)

/-- `SyncWrapContext::run_async` (t_sync.rs lines 133-142) under the failure
semantics. -/
def SyncWrapContextF.run_async (impl : SyncWrapContextF ε σ C T)
    (caller_context : CallerContext) (block : σ → Except ε (T × σ)) (s : σ) :
    Except ε (T × σ) :=
  match impl.new s with
  | .error e => .error e
  | .ok cs =>
    match impl.before cs.1 caller_context cs.2 with
    | .error e => .error e
    | .ok s1 =>
      match block s1 with
      | .error e => .error e
      | .ok rt =>
        match impl.after cs.1 caller_context rt.1 rt.2 with
        | .error e => .error e
        | .ok s2 => .ok (rt.1, s2)

/-- `AsyncWrapContext::run` (t_async.rs lines 94-103) under the failure
semantics. -/
def AsyncWrapContextF.run (impl : AsyncWrapContextF ε σ C T)
    (caller_context : CallerContext) (block : σ → Except ε (T × σ)) (s : σ) :
    Except ε (T × σ) :=
  match impl.new s with
  | .error e => .error e
  | .ok cs =>
    match impl.before cs.1 caller_context cs.2 with
    | .error e => .error e
    | .ok s1 =>
      match block s1 with
      | .error e => .error e
      | .ok rt =>
        match impl.after cs.1 caller_context rt.1 rt.2 with
        | .error e => .error e
        | .ok s2 => .ok (rt.1, s2)

/-!
Embedding of the procedural macros (src/context_manager_macro/src/lib.rs).

Token streams are modelled just finely enough to mirror everything the
macros inspect or emit: the attribute argument, the function signature
fields the macros read or leave alone, the original statement list (opaque
to the macros), the injected `compile_error!` statements and the generated
wrapped call.  `parse_macro_input!` failures abort the macro and emit the
parse error, modelled by the `.err` output constructor.
-/

/-- A `syn::Type` as the macro uses it: an uninterpreted type reference kept
as its token text. -/
structure RustType where
  tokens : String
deriving DecidableEq, Repr

/-- The attribute argument token stream as seen by `Args::parse` (lib.rs
lines 30-43): empty, exactly one well-formed type reference, or anything
else.  In the last case the host `Type` parse fails with its own diagnostic
`d` (the text of `d` belongs to the host toolchain, out of this crate's
control). -/
inductive AttrInput where
  | empty
  | typeRef (t : RustType)
  | malformed (d : String)
deriving DecidableEq, Repr

/-- `Args` (lib.rs lines 26-28). -/
structure Args where
  context_type : RustType
deriving DecidableEq, Repr

/-- Error message of `Args::parse` for an empty argument (lib.rs line 35). -/
def argsErrorMsg : String :=
  "Expected a type as argument: `#[wrap(Type)]` or `#[async_wrap(Type)]`"

/-- `Args::parse` (lib.rs lines 30-43): error on empty input, otherwise
parse a single `Type`, propagating the host parser's failure. -/
def Args.parse : AttrInput → Except String Args
  | .empty => .error argsErrorMsg
  | .typeRef t => .ok { context_type := t }
  | .malformed d => .error d

/-- Which trait the generated call goes through. -/
inductive TraitRef where
  | syncWrapContext
  | asyncWrapContext
deriving DecidableEq, Repr

/-- Which provided entry point the generated call names. -/
inductive EntryPoint where
  | runSync
  | runAsync
  | run
deriving DecidableEq, Repr

/-- The original statement list of the annotated function; the macros never
look inside it, so its statements are opaque token strings. -/
abbrev UserBlock := List String

/-- An argument of the generated wrapped call. -/
inductive GenArg where
  | callerContextNew (fn_name : String)
  | moveClosure (body : UserBlock)
  | asyncBlock (body : UserBlock)
deriving DecidableEq, Repr

/-- A statement of the rewritten function's body. -/
inductive BodyStmt where
  | user (code : String)
  | compileError (msg : String)
  | genCall (traitRef : TraitRef) (contextType : RustType) (entry : EntryPoint)
      (args : List GenArg) (awaited : Bool)
deriving DecidableEq, Repr

/-- The signature fields of `syn::ItemFn` the macros read (`constness`,
`asyncness`) or carry through untouched. -/
structure Signature where
  name : String
  constness : Bool
  asyncness : Bool
  generics : List String
  inputs : List String
  output : String
deriving DecidableEq, Repr

/-- The annotated function handed to a macro. -/
structure ItemFn where
  attrs : List String
  vis : String
  sig : Signature
  block : UserBlock
deriving DecidableEq, Repr

/-- The function a macro emits. -/
structure OutFn where
  attrs : List String
  vis : String
  sig : Signature
  block : List BodyStmt
deriving DecidableEq, Repr

/-- A macro invocation's output token stream: either a parse-failure
compile error (`parse_macro_input!` aborting) or a rewritten function. -/
inductive Expanded where
  | err (msg : String)
  | fn (f : OutFn)
deriving DecidableEq, Repr

/-- View the original statements as statements of the rewritten body. -/
def userStmts (b : UserBlock) : List BodyStmt :=
  b.map BodyStmt.user

/-- The `compile_error!` text both macros inject for `const` functions
(lib.rs lines 59 and 105; both literals read `#[wrap]`). -/
def constFnErrorMsg : String :=
  "#[wrap] cannot operate on const functions."

/-- The `compile_error!` text `async_wrap` injects for non-async functions
(lib.rs lines 127-129). -/
def asyncWrapSyncFnMsg : String :=
  "#[async_wrap] cannot operate on sync functions. Please consider using a #[wrap] macro or converting/wrapping the function to be async."

/-- The `wrap` macro (lib.rs lines 51-87): reject `const` functions by
injecting a `compile_error!` as the first body statement; otherwise parse
the attribute argument, then replace the body with a call of
`SyncWrapContext::run_async` on `async { body }` (awaited) for an async
function, or `SyncWrapContext::run_sync` on `move || body` for a sync one. -/
def wrap (attr : AttrInput) (item : ItemFn) : Expanded :=
  if item.sig.constness then
    .fn { attrs := item.attrs, vis := item.vis, sig := item.sig,
          block := BodyStmt.compileError constFnErrorMsg :: userStmts item.block }
  else
    match Args.parse attr with
    | .error e => .err e
    | .ok args =>
      if item.sig.asyncness then
        .fn { attrs := item.attrs, vis := item.vis, sig := item.sig,
              block := [BodyStmt.genCall TraitRef.syncWrapContext args.context_type
                EntryPoint.runAsync [GenArg.asyncBlock item.block] true] }
      else
        .fn { attrs := item.attrs, vis := item.vis, sig := item.sig,
              block := [BodyStmt.genCall TraitRef.syncWrapContext args.context_type
                EntryPoint.runSync [GenArg.moveClosure item.block] false] }

/-- The `async_wrap` macro (lib.rs lines 95-134): reject `const` functions
like `wrap`; otherwise parse the attribute argument, then for an async
function replace the body with an awaited call of `AsyncWrapContext::run`
on `async { body }`, and for a sync function inject the
"cannot operate on sync functions" `compile_error!` as the first body
statement. -/
def async_wrap (attr : AttrInput) (item : ItemFn) : Expanded :=
  if item.sig.constness then
    .fn { attrs := item.attrs, vis := item.vis, sig := item.sig,
          block := BodyStmt.compileError constFnErrorMsg :: userStmts item.block }
  else
    match Args.parse attr with
    | .error e => .err e
    | .ok args =>
      if item.sig.asyncness then
        .fn { attrs := item.attrs, vis := item.vis, sig := item.sig,
              block := [BodyStmt.genCall TraitRef.asyncWrapContext args.context_type
                EntryPoint.run [GenArg.asyncBlock item.block] true] }
      else
        .fn { attrs := item.attrs, vis := item.vis, sig := item.sig,
              block := BodyStmt.compileError asyncWrapSyncFnMsg :: userStmts item.block }

/-- Diagnostics a body statement contributes to the build. -/
def BodyStmt.diags : BodyStmt → List String
  | .compileError m => [m]
  | _ => []

/-- All diagnostics a macro output makes the build fail with: the parse
error, or every injected `compile_error!` of the emitted function. -/
def Expanded.diags : Expanded → List String
  | .err m => [m]
  | .fn f => (f.block.map BodyStmt.diags).flatten

/-- Whether a macro output fails the build (some diagnostic is emitted). -/
def Expanded.failsBuild (o : Expanded) : Bool :=
  !o.diags.isEmpty

/-- A generated-call argument is a `CallerContext` construction. -/
def GenArg.isCallerContextNew : GenArg → Bool
  | .callerContextNew _ => true
  | _ => false

/-- Arity of `SyncWrapContext::run_sync` per its declaration
(t_sync.rs line 98: `caller_context`, `block`). -/
def runSyncParamCount : Nat := 2

/-- Arity of `SyncWrapContext::run_async` per its declaration
(t_sync.rs line 133: `caller_context`, `block`). -/
def runAsyncParamCount : Nat := 2

/-- Arity of `AsyncWrapContext::run` per its declaration
(t_async.rs line 94: `caller_context`, `block`). -/
def runParamCount : Nat := 2

/-!  Helper lemma: the original statements contribute no diagnostics. -/

theorem userStmts_diags (b : UserBlock) :
    ((userStmts b).map BodyStmt.diags).flatten = [] := by
  induction b with
  | nil => rfl
  | cons x xs ih =>
    simp only [userStmts, List.map_cons, List.flatten_cons] at ih ⊢
    simp only [BodyStmt.diags, List.nil_append]
    exact ih

/-- Claim C1: for every context type and every single call of `run_sync`,
`run_async` or `run`, the hooks execute in the fixed order initialize,
before, body, after, each exactly once: with every step instrumented to log
its event, the trace produced by one call is exactly
`[initialize, before, body, after]` appended to the incoming trace. -/
theorem hook_order_fixed_per_call
    (implS : SyncWrapContext σ C T) (implA : AsyncWrapContext σ C T)
    (cc : CallerContext) (block : σ → T × σ) (s : σ) (tr : List HookEvent) :
    ((instrumentS implS).run_sync cc (instrumentBlock block) (s, tr)).2.2
      = tr ++ [HookEvent.init, HookEvent.before, HookEvent.body, HookEvent.after]
    ∧ ((instrumentS implS).run_async cc (instrumentBlock block) (s, tr)).2.2
      = tr ++ [HookEvent.init, HookEvent.before, HookEvent.body, HookEvent.after]
    ∧ ((instrumentA implA).run cc (instrumentBlock block) (s, tr)).2.2
      = tr ++ [HookEvent.init, HookEvent.before, HookEvent.body, HookEvent.after] := by
  refine ⟨?_, ?_, ?_⟩ <;>
    simp [SyncWrapContext.run_sync, SyncWrapContext.run_async, AsyncWrapContext.run,
      instrumentS, instrumentA, instrumentBlock]

/-- Claim C2: the value returned by `run_sync`, `run_async` and `run` is the
value the wrapped body itself produced — the first components below are
exactly the block's output at the state where the block runs, and a body
computing a fixed value `t` makes the whole call return `t`. -/
theorem run_preserves_body_result
    (implS : SyncWrapContext σ C T) (implA : AsyncWrapContext σ C T)
    (cc : CallerContext) (block : σ → T × σ) (s : σ) :
    (implS.run_sync cc block s).1
      = (block (implS.before (implS.new s).1 cc (implS.new s).2)).1
    ∧ (implS.run_async cc block s).1
      = (block (implS.before (implS.new s).1 cc (implS.new s).2)).1
    ∧ (implA.run cc block s).1
      = (block (implA.before (implA.new s).1 cc (implA.new s).2)).1
    ∧ (∀ (t : T) (upd : σ → σ),
        (implS.run_sync cc (fun s0 => (t, upd s0)) s).1 = t
        ∧ (implS.run_async cc (fun s0 => (t, upd s0)) s).1 = t
        ∧ (implA.run cc (fun s0 => (t, upd s0)) s).1 = t) :=
  ⟨rfl, rfl, rfl, fun _ _ => ⟨rfl, rfl, rfl⟩⟩

/-- Claim C8: `CallerContext::new s` reports `fn_name` equal to `s`, and the
value is immutable across a call: with `before` and `after` instrumented to
record the `CallerContext` they are handed, every entry point hands both
hooks exactly the constructed value, unchanged. -/
theorem caller_context_reports_fn_name
    (nm : String) (implS : SyncWrapContext σ C T) (implA : AsyncWrapContext σ C T)
    (block : σ → T × σ) (s : σ) :
    (CallerContext.new nm).fn_name = nm
    ∧ ((recordS implS).run_sync (CallerContext.new nm) (recordBlock block) (s, [])).2.2
      = [CallerContext.new nm, CallerContext.new nm]
    ∧ ((recordS implS).run_async (CallerContext.new nm) (recordBlock block) (s, [])).2.2
      = [CallerContext.new nm, CallerContext.new nm]
    ∧ ((recordA implA).run (CallerContext.new nm) (recordBlock block) (s, [])).2.2
      = [CallerContext.new nm, CallerContext.new nm] :=
  ⟨rfl, rfl, rfl, rfl⟩

/-- Claim C9: failures of any hook or of the body propagate out of
`run_sync`, `run_async` and `run` unmodified (there is no catch, retry or
suppression layer), and when the body fails the `after` hook is not invoked:
the outcome is the same error for every possible `after`. -/
theorem hook_and_body_failures_propagate
    (implS : SyncWrapContextF ε σ C T) (implA : AsyncWrapContextF ε σ C T)
    (cc : CallerContext) (block : σ → Except ε (T × σ)) (s : σ) :
    (∀ e, implS.new s = .error e →
      implS.run_sync cc block s = .error e ∧ implS.run_async cc block s = .error e)
    ∧ (∀ e, implA.new s = .error e → implA.run cc block s = .error e)
    ∧ (∀ c s1 e, implS.new s = .ok (c, s1) → implS.before c cc s1 = .error e →
      implS.run_sync cc block s = .error e ∧ implS.run_async cc block s = .error e)
    ∧ (∀ c s1 e, implA.new s = .ok (c, s1) → implA.before c cc s1 = .error e →
      implA.run cc block s = .error e)
    ∧ (∀ c s1 s2 e, implS.new s = .ok (c, s1) → implS.before c cc s1 = .ok s2 →
      block s2 = .error e →
      implS.run_sync cc block s = .error e
      ∧ implS.run_async cc block s = .error e
      ∧ ∀ g, SyncWrapContextF.run_sync { implS with after := g } cc block s = .error e)
    ∧ (∀ c s1 s2 e, implA.new s = .ok (c, s1) → implA.before c cc s1 = .ok s2 →
      block s2 = .error e →
      implA.run cc block s = .error e
      ∧ ∀ g, AsyncWrapContextF.run { implA with after := g } cc block s = .error e)
    ∧ (∀ c s1 s2 rt e, implS.new s = .ok (c, s1) → implS.before c cc s1 = .ok s2 →
      block s2 = .ok rt → implS.after c cc rt.1 rt.2 = .error e →
      implS.run_sync cc block s = .error e ∧ implS.run_async cc block s = .error e)
    ∧ (∀ c s1 s2 rt e, implA.new s = .ok (c, s1) → implA.before c cc s1 = .ok s2 →
      block s2 = .ok rt → implA.after c cc rt.1 rt.2 = .error e →
      implA.run cc block s = .error e) := by
  refine ⟨?_, ?_, ?_, ?_, ?_, ?_, ?_, ?_⟩
  · intro e h
    exact ⟨by simp [SyncWrapContextF.run_sync, h],
           by simp [SyncWrapContextF.run_async, h]⟩
  · intro e h
    simp [AsyncWrapContextF.run, h]
  · intro c s1 e h1 h2
    exact ⟨by simp [SyncWrapContextF.run_sync, h1, h2],
           by simp [SyncWrapContextF.run_async, h1, h2]⟩
  · intro c s1 e h1 h2
    simp [AsyncWrapContextF.run, h1, h2]
  · intro c s1 s2 e h1 h2 h3
    exact ⟨by simp [SyncWrapContextF.run_sync, h1, h2, h3],
           by simp [SyncWrapContextF.run_async, h1, h2, h3],
           fun g => by simp [SyncWrapContextF.run_sync, h1, h2, h3]⟩
  · intro c s1 s2 e h1 h2 h3
    exact ⟨by simp [AsyncWrapContextF.run, h1, h2, h3],
           fun g => by simp [AsyncWrapContextF.run, h1, h2, h3]⟩
  · intro c s1 s2 rt e h1 h2 h3 h4
    exact ⟨by simp [SyncWrapContextF.run_sync, h1, h2, h3, h4],
           by simp [SyncWrapContextF.run_async, h1, h2, h3, h4]⟩
  · intro c s1 s2 rt e h1 h2 h3 h4
    simp [AsyncWrapContextF.run, h1, h2, h3, h4]

/-- Concrete fallible sync-hook context used to exercise
`hook_and_body_failures_propagate`: hooks succeed, the body fails. -/
def implSW : SyncWrapContextF String Nat Unit Nat where
  new s := .ok ((), s)
  before _ _ s := .ok s
  after _ _ _ s := .ok s

/-- Concrete fallible async-hook context used to exercise
`hook_and_body_failures_propagate`. -/
def implAW : AsyncWrapContextF String Nat Unit Nat where
  new s := .ok ((), s)
  before _ _ s := .ok s
  after _ _ _ s := .ok s

/-- A failing body propagates its error out of a concrete `run_sync` call. -/
theorem hook_and_body_failures_propagate_witness :
    SyncWrapContextF.run_sync implSW (CallerContext.new "w")
      (fun _ => Except.error "boom") 0 = Except.error "boom" :=
  ((hook_and_body_failures_propagate implSW implAW (CallerContext.new "w")
    (fun _ => Except.error "boom") 0).2.2.2.2.1 () 0 0 "boom" rfl rfl rfl).1

/-!
Concrete annotated functions, modelled on the crate's ui tests
(src/context_manager/tests/ui).  Lifetimes and generic bounds are opaque
token strings here; the macros never inspect them.
-/

/-- Signature of `fn sync_foo<..>(v: &T) -> String` from
tests/ui/pass/sync_macro_sync_function.rs. -/
def syncFooSig : Signature where
  name := "sync_foo"
  constness := false
  asyncness := false
  generics := ["lifetime a", "T: Debug"]
  inputs := ["v: ref T"]
  output := "String"

/-- The ui-test function `sync_foo` as handed to `wrap`. -/
def syncFooItem : ItemFn where
  attrs := []
  vis := ""
  sig := syncFooSig
  block := ["format debug of v"]

/-- Signature of `async fn async_foo<..>(v: &T) -> String` from
tests/ui/pass/async_macro_async_function.rs. -/
def asyncFooSig : Signature where
  name := "async_foo"
  constness := false
  asyncness := true
  generics := ["lifetime a", "T: Debug"]
  inputs := ["v: ref T"]
  output := "String"

/-- The ui-test function `async_foo` as handed to `async_wrap`. -/
def asyncFooItem : ItemFn where
  attrs := []
  vis := ""
  sig := asyncFooSig
  block := ["format debug of v"]

/-- Signature of `const fn sync_foo<..>(v: &T) -> &T` from
tests/ui/fail/sync_macro_sync_const_function.rs. -/
def constSyncFooSig : Signature where
  name := "sync_foo"
  constness := true
  asyncness := false
  generics := ["lifetime a", "T: ?Sized"]
  inputs := ["v: ref T"]
  output := "ref T"

/-- The ui-test `const` function as handed to either macro. -/
def constSyncFooItem : ItemFn where
  attrs := []
  vis := ""
  sig := constSyncFooSig
  block := ["v"]

/-- The function `wrap` emits for the ui-test input `sync_foo`: the body is
one call of `SyncWrapContext::run_sync` on the moved closure only. -/
def wrapSyncFooOut : OutFn where
  attrs := []
  vis := ""
  sig := syncFooSig
  block := [BodyStmt.genCall TraitRef.syncWrapContext { tokens := "Sync" }
    EntryPoint.runSync [GenArg.moveClosure ["format debug of v"]] false]

/-- The function `async_wrap` emits for the ui-test input `async_foo`: the
body is one awaited call of `AsyncWrapContext::run` on the async block only. -/
def asyncWrapAsyncFooOut : OutFn where
  attrs := []
  vis := ""
  sig := asyncFooSig
  block := [BodyStmt.genCall TraitRef.asyncWrapContext { tokens := "Async" }
    EntryPoint.run [GenArg.asyncBlock ["format debug of v"]] true]

/-- Claim C3 (bug evidence): for the ui-test function `sync_foo`, `wrap`
emits a body whose single statement calls `SyncWrapContext::run_sync` with
the moved closure as its only argument — no `CallerContext` is constructed
or passed, although the entry point declares two parameters with the caller
context first; likewise `async_wrap` on `async_foo` calls
`AsyncWrapContext::run` with just the async block. -/
theorem wrap_generated_call_omits_caller_context :
    wrap (AttrInput.typeRef { tokens := "Sync" }) syncFooItem = Expanded.fn wrapSyncFooOut
    ∧ ([GenArg.moveClosure ["format debug of v"]].filter GenArg.isCallerContextNew).length = 0
    ∧ [GenArg.moveClosure ["format debug of v"]].length = 1
    ∧ runSyncParamCount = 2
    ∧ async_wrap (AttrInput.typeRef { tokens := "Async" }) asyncFooItem
      = Expanded.fn asyncWrapAsyncFooOut
    ∧ ([GenArg.asyncBlock ["format debug of v"]].filter GenArg.isCallerContextNew).length = 0
    ∧ runParamCount = 2 :=
  ⟨rfl, rfl, rfl, rfl, rfl, rfl, rfl⟩

/-- Claim C4: whenever either macro emits a function, everything but the
body statements — attributes, visibility and the whole signature (name,
generics, inputs, output, constness, asyncness) — is exactly the original's. -/
theorem transform_preserves_signature (attr : AttrInput) (item : ItemFn) (f : OutFn) :
    (wrap attr item = Expanded.fn f →
      f.attrs = item.attrs ∧ f.vis = item.vis ∧ f.sig = item.sig)
    ∧ (async_wrap attr item = Expanded.fn f →
      f.attrs = item.attrs ∧ f.vis = item.vis ∧ f.sig = item.sig) := by
  constructor <;> intro h <;>
    simp only [wrap, async_wrap] at h <;>
    split at h
  case _ => exact (Expanded.fn.injEq _ _).mp h |>.symm ▸ ⟨rfl, rfl, rfl⟩
  all_goals
    first
    | (split at h
       · exact absurd h (by simp)
       · split at h <;>
           exact (Expanded.fn.injEq _ _).mp h |>.symm ▸ ⟨rfl, rfl, rfl⟩)
    | exact (Expanded.fn.injEq _ _).mp h |>.symm ▸ ⟨rfl, rfl, rfl⟩

/-- Instantiation of `transform_preserves_signature` at the ui-test input. -/
theorem transform_preserves_signature_witness :
    wrapSyncFooOut.attrs = syncFooItem.attrs
    ∧ wrapSyncFooOut.vis = syncFooItem.vis
    ∧ wrapSyncFooOut.sig = syncFooItem.sig :=
  (transform_preserves_signature (AttrInput.typeRef { tokens := "Sync" })
    syncFooItem wrapSyncFooOut).1 rfl

/-- Claim C5: for every `const` function, both macros inject the
`compile_error!` directive about `const` functions as the first statement of
the otherwise-kept body, so the annotated program never compiles. -/
theorem const_fn_always_rejected (attr : AttrInput) (item : ItemFn)
    (h : item.sig.constness = true) :
    wrap attr item
      = Expanded.fn { attrs := item.attrs, vis := item.vis, sig := item.sig,
                      block := BodyStmt.compileError constFnErrorMsg :: userStmts item.block }
    ∧ async_wrap attr item
      = Expanded.fn { attrs := item.attrs, vis := item.vis, sig := item.sig,
                      block := BodyStmt.compileError constFnErrorMsg :: userStmts item.block }
    ∧ (wrap attr item).failsBuild = true
    ∧ (async_wrap attr item).failsBuild = true := by
  refine ⟨by simp [wrap, h], by simp [async_wrap, h], ?_, ?_⟩ <;>
    simp [wrap, async_wrap, h, Expanded.failsBuild, Expanded.diags, BodyStmt.diags,
      userStmts_diags]

/-- Instantiation of `const_fn_always_rejected` at the ui-test `const`
function with a well-formed attribute argument. -/
theorem const_fn_always_rejected_witness :
    wrap (AttrInput.typeRef { tokens := "Sync" }) constSyncFooItem
      = Expanded.fn { attrs := [], vis := "", sig := constSyncFooSig,
                      block := [BodyStmt.compileError constFnErrorMsg, BodyStmt.user "v"] } :=
  (const_fn_always_rejected (AttrInput.typeRef { tokens := "Sync" })
    constSyncFooItem rfl).1

/-- Claim C10: in both macros the `const` check runs before the attribute
argument is parsed: on a `const` function the output is the same for every
attribute argument (so the argument is never validated), and the only
diagnostic emitted is the `const`-function one. -/
theorem const_check_preempts_arg_parse (attr attr2 : AttrInput) (item : ItemFn)
    (h : item.sig.constness = true) :
    wrap attr item = wrap attr2 item
    ∧ async_wrap attr item = async_wrap attr2 item
    ∧ (wrap attr item).diags = [constFnErrorMsg]
    ∧ (async_wrap attr item).diags = [constFnErrorMsg] := by
  refine ⟨?_, ?_, ?_, ?_⟩ <;>
    simp [wrap, async_wrap, h, Expanded.diags, BodyStmt.diags, userStmts_diags]

/-- Instantiation of `const_check_preempts_arg_parse`: an absent argument
and a well-formed one give the identical output on the ui-test `const`
function, and no argument diagnostic appears. -/
theorem const_check_preempts_arg_parse_witness :
    wrap AttrInput.empty constSyncFooItem
      = wrap (AttrInput.typeRef { tokens := "Sync" }) constSyncFooItem
    ∧ (wrap AttrInput.empty constSyncFooItem).diags = [constFnErrorMsg] :=
  ⟨(const_check_preempts_arg_parse AttrInput.empty (AttrInput.typeRef { tokens := "Sync" })
      constSyncFooItem rfl).1,
   (const_check_preempts_arg_parse AttrInput.empty AttrInput.empty
      constSyncFooItem rfl).2.2.1⟩

/-- Claim C6 is refuted as universally stated: the ui-test `const` (and
non-async) function under `async_wrap` fails the build, but with the
`const`-function diagnostic, not one explaining that only suspending
functions are supported. -/
theorem async_wrap_nonasync_const_diag_mismatch :
    constSyncFooItem.sig.asyncness = false
    ∧ (async_wrap (AttrInput.typeRef { tokens := "Async" }) constSyncFooItem).diags
      = [constFnErrorMsg]
    ∧ constFnErrorMsg ≠ asyncWrapSyncFnMsg
    ∧ asyncWrapSyncFnMsg
      ∉ (async_wrap (AttrInput.typeRef { tokens := "Async" }) constSyncFooItem).diags := by
  refine ⟨rfl, rfl, ?_, ?_⟩ <;> decide

/-- Claim C6 as amended: for every non-`const`, non-async function whose
attribute argument is a single type reference, `async_wrap` injects the
`compile_error!` explaining that it cannot operate on sync functions and
suggesting `#[wrap]` or converting the function to async, as the first
statement of the kept body. -/
theorem async_wrap_rejects_nonasync_fn (t : RustType) (item : ItemFn)
    (hc : item.sig.constness = false) (ha : item.sig.asyncness = false) :
    async_wrap (AttrInput.typeRef t) item
      = Expanded.fn { attrs := item.attrs, vis := item.vis, sig := item.sig,
                      block := BodyStmt.compileError asyncWrapSyncFnMsg :: userStmts item.block }
    ∧ (async_wrap (AttrInput.typeRef t) item).diags = [asyncWrapSyncFnMsg] := by
  constructor <;>
    simp [async_wrap, hc, ha, Args.parse, Expanded.diags, BodyStmt.diags, userStmts_diags]

/-- Instantiation of `async_wrap_rejects_nonasync_fn` at the ui-test input
of tests/ui/fail/async_macro_sync_function.rs. -/
theorem async_wrap_rejects_nonasync_fn_witness :
    (async_wrap (AttrInput.typeRef { tokens := "Async" }) syncFooItem).diags
      = [asyncWrapSyncFnMsg] :=
  (async_wrap_rejects_nonasync_fn { tokens := "Async" } syncFooItem rfl rfl).2

/-- Claim C7 is refuted as universally stated: on the ui-test `const`
function with an absent attribute argument, the build fails only with the
`const`-function diagnostic; the "expected a type as argument" diagnostic is
never emitted and the argument is never parsed. -/
theorem wrap_const_fn_suppresses_arg_diag :
    (wrap AttrInput.empty constSyncFooItem).diags = [constFnErrorMsg]
    ∧ constFnErrorMsg ≠ argsErrorMsg
    ∧ argsErrorMsg ∉ (wrap AttrInput.empty constSyncFooItem).diags := by
  refine ⟨rfl, ?_, ?_⟩ <;> decide

/-- Claim C7 as amended: for every non-`const` function, an attribute
argument that fails to parse as a single type reference makes both macros
emit the parse error as the whole output, failing the build; for an absent
argument that error is the crate's "Expected a type as argument" message
(for a malformed one it is the host type parser's own diagnostic). -/
theorem arg_parse_failure_blocks_build (attr : AttrInput) (item : ItemFn) (m : String)
    (hc : item.sig.constness = false) (hp : Args.parse attr = Except.error m) :
    wrap attr item = Expanded.err m
    ∧ async_wrap attr item = Expanded.err m
    ∧ Args.parse AttrInput.empty = Except.error argsErrorMsg := by
  refine ⟨?_, ?_, rfl⟩ <;> simp [wrap, async_wrap, hc, hp]

/-- Instantiation of `arg_parse_failure_blocks_build`: `wrap` with no
attribute argument on the ui-test function `sync_foo`. -/
theorem arg_parse_failure_blocks_build_witness :
    wrap AttrInput.empty syncFooItem = Expanded.err argsErrorMsg :=
  (arg_parse_failure_blocks_build AttrInput.empty syncFooItem argsErrorMsg rfl rfl).1
